import Mathlib

/-!
# Verification of the WEEX CORS proxy (`proxy-server.py`)

A shallow embedding of the authenticating reverse proxy in
`proxy-server.py`: the HMAC-SHA256 signer (`generate_signature`), the
credential-extraction and canonical-message construction inside
`CORSProxyHandler._proxy_request`, the CORS header injection in
`end_headers`, the preflight handler `do_OPTIONS`, and the error
translation of the three failure domains (upstream HTTP error, upstream
connection failure, internal fault).

Python `str` values are modelled as lists of Unicode code points
(`PyStr := List Nat`); raw byte strings as `List Nat` of bytes.
Machine words in SHA-256 are `Nat` with explicit reduction mod `2^32`.
-/

/-- A Python `str`: a sequence of Unicode code points. -/
abbrev PyStr := List Nat

/-- Embed a Lean string literal as a `PyStr` (its code points). -/
def pyStr (s : String) : PyStr := s.data.map Char.toNat

/-- Python `str.upper` restricted to ASCII (all method tokens in the proxy
are ASCII, so this coincides with CPython on every input the code feeds it). -/
def pyUpper (s : PyStr) : PyStr :=
  s.map (fun c => if 97 ≤ c ∧ c ≤ 122 then c - 32 else c)

/-- ASCII lowercasing, used for the case-insensitive header lookup of
`http.client.HTTPMessage.get`. -/
def pyLower (s : PyStr) : PyStr :=
  s.map (fun c => if 65 ≤ c ∧ c ≤ 90 then c + 32 else c)

/-- Python `s.split(sep)` for a one-character separator: splits on every
occurrence, always returns at least one (possibly empty) segment. -/
def pySplit (sep : Nat) : PyStr → List PyStr
  | [] => [[]]
  | c :: r =>
    if c = sep then [] :: pySplit sep r
    else
      match pySplit sep r with
      | s :: ss => (c :: s) :: ss
      | [] => [[c]]

/-- `headers.get(name, default)`: case-insensitive lookup, as performed by
`http.client.HTTPMessage`. -/
def pyGet (hs : List (PyStr × PyStr)) (name dflt : PyStr) : PyStr :=
  match hs.find? (fun p => pyLower p.1 = pyLower name) with
  | some p => p.2
  | none => dflt

/-! ## UTF-8 encoding and decoding (`str.encode` / `bytes.decode`) -/

/-- UTF-8 encoding of a single Unicode code point. -/
def utf8EncodeChar (c : Nat) : List Nat :=
  if c < 128 then [c]
  else if c < 2048 then [192 + c / 64, 128 + c % 64]
  else if c < 65536 then [224 + c / 4096, 128 + c / 64 % 64, 128 + c % 64]
  else [240 + c / 262144, 128 + c / 4096 % 64, 128 + c / 64 % 64, 128 + c % 64]

/-- `str.encode("utf-8")`: UTF-8 bytes of a Python string. -/
def utf8Encode (s : PyStr) : List Nat := (s.map utf8EncodeChar).flatten

/-- Classification of the first UTF-8 sequence of a byte string:
`ok consumed cp` for a well-formed sequence (RFC 3629), `bad consumed` for
a maximal invalid subpart of `consumed` bytes (per the Unicode
recommendation CPython follows for `errors="replace"`). -/
inductive Utf8Step where
  | ok (consumed cp : Nat)
  | bad (consumed : Nat)
deriving DecidableEq

/-- Classify the first UTF-8 sequence of a byte string. -/
def utf8Step (l : List Nat) : Utf8Step :=
  match l with
  | [] => .bad 0
  | b0 :: rest =>
    if b0 < 128 then .ok 1 b0
    else if 194 ≤ b0 ∧ b0 ≤ 223 then
      match rest with
      | b1 :: _ =>
        if 128 ≤ b1 ∧ b1 ≤ 191 then .ok 2 ((b0 - 192) * 64 + (b1 - 128)) else .bad 1
      | [] => .bad 1
    else if 224 ≤ b0 ∧ b0 ≤ 239 then
      match rest with
      | b1 :: rest1 =>
        if (if b0 = 224 then 160 ≤ b1 ∧ b1 ≤ 191
            else if b0 = 237 then 128 ≤ b1 ∧ b1 ≤ 159
            else 128 ≤ b1 ∧ b1 ≤ 191) then
          match rest1 with
          | b2 :: _ =>
            if 128 ≤ b2 ∧ b2 ≤ 191 then
              .ok 3 ((b0 - 224) * 4096 + (b1 - 128) * 64 + (b2 - 128))
            else .bad 2
          | [] => .bad 2
        else .bad 1
      | [] => .bad 1
    else if 240 ≤ b0 ∧ b0 ≤ 244 then
      match rest with
      | b1 :: rest1 =>
        if (if b0 = 240 then 144 ≤ b1 ∧ b1 ≤ 191
            else if b0 = 244 then 128 ≤ b1 ∧ b1 ≤ 143
            else 128 ≤ b1 ∧ b1 ≤ 191) then
          match rest1 with
          | b2 :: rest2 =>
            if 128 ≤ b2 ∧ b2 ≤ 191 then
              match rest2 with
              | b3 :: _ =>
                if 128 ≤ b3 ∧ b3 ≤ 191 then
                  .ok 4 ((b0 - 240) * 262144 + (b1 - 128) * 4096 + (b2 - 128) * 64 + (b3 - 128))
                else .bad 3
              | [] => .bad 3
            else .bad 2
          | [] => .bad 2
        else .bad 1
      | [] => .bad 1
    else .bad 1

/-- Strict decoding loop; the fuel is an upper bound on the number of
sequences (each step consumes at least one byte, so the byte count is
enough fuel). -/
def utf8DecodeSGo : Nat → List Nat → Option (List Nat)
  | _, [] => some []
  | 0, _ :: _ => none
  | fuel + 1, b0 :: rest =>
    match utf8Step (b0 :: rest) with
    | .ok n cp => (utf8DecodeSGo fuel ((b0 :: rest).drop n)).map (fun t => cp :: t)
    | .bad _ => none

/-- `bytes.decode("utf-8")` (strict): `some` code points exactly when the
bytes are well-formed UTF-8 per RFC 3629, `none` when CPython would raise
`UnicodeDecodeError`. -/
def utf8DecodeS (l : List Nat) : Option (List Nat) := utf8DecodeSGo l.length l

/-- Replacing decoding loop: each maximal invalid subpart becomes U+FFFD. -/
def utf8DecodeRGo : Nat → List Nat → List Nat
  | _, [] => []
  | 0, _ :: _ => []
  | fuel + 1, b0 :: rest =>
    match utf8Step (b0 :: rest) with
    | .ok n cp => cp :: utf8DecodeRGo fuel ((b0 :: rest).drop n)
    | .bad n => 65533 :: utf8DecodeRGo fuel ((b0 :: rest).drop n)

/-- `bytes.decode("utf-8", errors="replace")`: like the strict decoder but
each maximal invalid subpart becomes U+FFFD (CPython follows the Unicode
"maximal subpart" recommendation). -/
def utf8DecodeR (l : List Nat) : List Nat := utf8DecodeRGo l.length l

/-! ## SHA-256 (`hashlib.sha256`), HMAC (`hmac.new`) and base64 -/

/-- Reduce to a 32-bit word. -/
def w32 (n : Nat) : Nat := n % 4294967296

/-- Right rotation of a 32-bit word. -/
def rotr (n x : Nat) : Nat := w32 ((x >>> n) + (x <<< (32 - n)))

/-- Bitwise complement of a 32-bit word. -/
def not32 (x : Nat) : Nat := 4294967295 - x

/-- The SHA-256 round constants. -/
def K256 : List Nat :=
  [1116352408, 1899447441, 3049323471, 3921009573, 961987163, 1508970993,
   2453635748, 2870763221, 3624381080, 310598401, 607225278, 1426881987,
   1925078388, 2162078206, 2614888103, 3248222580, 3835390401, 4022224774,
   264347078, 604807628, 770255983, 1249150122, 1555081692, 1996064986,
   2554220882, 2821834349, 2952996808, 3210313671, 3336571891, 3584528711,
   113926993, 338241895, 666307205, 773529912, 1294757372, 1396182291,
   1695183700, 1986661051, 2177026350, 2456956037, 2730485921, 2820302411,
   3259730800, 3345764771, 3516065817, 3600352804, 4094571909, 275423344,
   430227734, 506948616, 659060556, 883997877, 958139571, 1322822218,
   1537002063, 1747873779, 1955562222, 2024104815, 2227730452, 2361852424,
   2428436474, 2756734187, 3204031479, 3329325298]

/-- The SHA-256 initial hash value. -/
def H256 : List Nat :=
  [1779033703, 3144134277, 1013904242, 2773480762,
   1359893119, 2600822924, 528734635, 1541459225]

/-- Big-endian bytes of `n`, `k` bytes wide. -/
def natToBytesBE : Nat → Nat → List Nat
  | 0, _ => []
  | k + 1, n => natToBytesBE k (n / 256) ++ [n % 256]

/-- SHA-256 message padding: append `0x80`, zeros to 56 mod 64, then the
bit length as 8 big-endian bytes. -/
def sha256Pad (m : List Nat) : List Nat :=
  m ++ [128] ++ List.replicate ((119 - m.length % 64) % 64) 0
    ++ natToBytesBE 8 (m.length * 8)

/-- Pack bytes into big-endian 32-bit words. -/
def bytesToWords : List Nat → List Nat
  | a :: b :: c :: d :: r => (a * 16777216 + b * 65536 + c * 256 + d) :: bytesToWords r
  | _ => []

/-- Extend a 16-word block to the 64-word message schedule. -/
def sha256Sched : Nat → List Nat → List Nat
  | 0, acc => acc
  | n + 1, acc =>
    let t := acc.length
    let wm2 := acc.getD (t - 2) 0
    let wm15 := acc.getD (t - 15) 0
    let s0 := (rotr 7 wm15) ^^^ (rotr 18 wm15) ^^^ (wm15 >>> 3)
    let s1 := (rotr 17 wm2) ^^^ (rotr 19 wm2) ^^^ (wm2 >>> 10)
    sha256Sched n (acc ++ [w32 (s1 + acc.getD (t - 7) 0 + s0 + acc.getD (t - 16) 0)])

/-- One SHA-256 compression round; the state is `[a,b,c,d,e,f,g,h]` and
`kw` is the round constant already added to the schedule word. -/
def sha256Round (st : List Nat) (kw : Nat) : List Nat :=
  match st with
  | [a, b, c, d, e, f, g, h] =>
    let s1 := (rotr 6 e) ^^^ (rotr 11 e) ^^^ (rotr 25 e)
    let ch := ((e &&& f) ^^^ ((not32 e) &&& g))
    let t1 := w32 (h + s1 + ch + kw)
    let s0 := (rotr 2 a) ^^^ (rotr 13 a) ^^^ (rotr 22 a)
    let mj := (a &&& b) ^^^ (a &&& c) ^^^ (b &&& c)
    let t2 := w32 (s0 + mj)
    [w32 (t1 + t2), a, b, c, w32 (d + t1), e, f, g]
  | _ => st

/-- Compress one 16-word block into the running hash. -/
def sha256Compress (h : List Nat) (block : List Nat) : List Nat :=
  let ws := sha256Sched 48 block
  let st := (List.zipWith (fun k w => w32 (k + w)) K256 ws).foldl sha256Round h
  List.zipWith (fun x y => w32 (x + y)) h st

/-- Split a word list into successive 16-word blocks (the padded message
is always a whole number of blocks). -/
def chunk16 : List Nat → List (List Nat)
  | w1 :: w2 :: w3 :: w4 :: w5 :: w6 :: w7 :: w8 :: w9 :: w10 :: w11 :: w12 :: w13 :: w14
      :: w15 :: w16 :: r =>
    [w1, w2, w3, w4, w5, w6, w7, w8, w9, w10, w11, w12, w13, w14, w15, w16] :: chunk16 r
  | [] => []
  | l => [l]

/-- Fold the compression over all 16-word blocks. -/
def sha256Blocks (h : List Nat) (ws : List Nat) : List Nat :=
  (chunk16 ws).foldl sha256Compress h

/-- `hashlib.sha256(msg).digest()`: the 32-byte SHA-256 digest. -/
def sha256 (msg : List Nat) : List Nat :=
  ((sha256Blocks H256 (bytesToWords (sha256Pad msg))).map (natToBytesBE 4)).flatten

/-- `hmac.new(key, msg, hashlib.sha256).digest()`. -/
def hmacSha256 (key msg : List Nat) : List Nat :=
  let k0 := if 64 < key.length then sha256 key else key
  let kp := k0 ++ List.replicate (64 - k0.length) 0
  sha256 ((kp.map (fun b => b ^^^ 92)) ++ sha256 ((kp.map (fun b => b ^^^ 54)) ++ msg))

/-- The base64 alphabet, as ASCII codes. -/
def b64Char (n : Nat) : Nat :=
  if n < 26 then 65 + n
  else if n < 52 then 97 + (n - 26)
  else if n < 62 then 48 + (n - 52)
  else if n = 62 then 43 else 47

/-- `base64.b64encode(bytes).decode()`: standard base64 with `=` padding,
returned as an (ASCII) Python string. -/
def b64Encode : List Nat → PyStr
  | [] => []
  | [a] => [b64Char (a / 4), b64Char (a % 4 * 16), 61, 61]
  | [a, b] => [b64Char (a / 4), b64Char (a % 4 * 16 + b / 16), b64Char (b % 16 * 4), 61]
  | a :: b :: c :: r =>
    b64Char (a / 4) :: b64Char (a % 4 * 16 + b / 16) :: b64Char (b % 16 * 4 + c / 64)
      :: b64Char (c % 64) :: b64Encode r

/-- `generate_signature` from `proxy-server.py`:
`base64.b64encode(hmac.new(secret.encode(), (timestamp + method.upper() + path + body).encode(), hashlib.sha256).digest()).decode()`. -/
def generate_signature (secret timestamp method path body : PyStr) : PyStr :=
  b64Encode (hmacSha256 (utf8Encode secret)
    (utf8Encode (timestamp ++ pyUpper method ++ path ++ body)))

/-! ## The proxy handler (`CORSProxyHandler._proxy_request`, `end_headers`,
`do_OPTIONS`) -/

/-- `WEEX_API_BASE = "https://api-contract.weex.com"`. -/
def WEEX_API_BASE : PyStr := pyStr "https://api-contract.weex.com"

/-- The code point of the `?` character. -/
def qmark : Nat := 63

/-- The outcome of the single `urlopen` call, as seen by the handler:
a response object, an `urllib.error.HTTPError`, or an
`urllib.error.URLError` (the handler never observes anything else from the
network call). `success` carries status, `Content-Type` and the three
`X-RateLimit-*` headers as the upstream supplied them, and the body bytes
returned by `response.read()`; `httpError` carries `e.code` and the bytes
of `e.read()`; `urlError` carries `str(e.reason)`. -/
inductive UpstreamOutcome where
  | success (status : Nat) (contentType : Option PyStr)
      (rlLimit rlRemaining rlReset : Option PyStr) (body : List Nat)
  | httpError (code : Nat) (body : List Nat)
  | urlError (reason : PyStr)
deriving DecidableEq

/-- One inbound request as `_proxy_request` observes it: the `method`
argument, `self.path`, the inbound header mapping, the parsed
`Content-Length` value, the bytes `self.rfile` can deliver, the clock
reading `int(time.time() * 1000)`, and the upstream outcome the network
produces for the forwarded call. -/
structure ProxyInput where
  method : PyStr
  path : PyStr
  headers : List (PyStr × PyStr)
  contentLength : Nat
  rfileBytes : List Nat
  nowMillis : Nat
  upstream : UpstreamOutcome
deriving DecidableEq

/-- The `urllib.request.Request` object built by the handler. -/
structure ForwardedRequest where
  url : PyStr
  data : Option (List Nat)
  headers : List (PyStr × PyStr)
  method : PyStr
deriving DecidableEq

/-- The JSON error envelope `{"code": ..., "msg": ..., "requestTime": null,
"data": null}` built by `json.dumps` in the two synthesized-error branches
(`requestTime` and `data` are always `None` in the source; the JSON
serialization itself is abstracted to this record). -/
structure ErrorEnvelope where
  code : PyStr
  msg : PyStr
  requestTime : Option PyStr
  data : Option PyStr
deriving DecidableEq

/-- What `self.wfile.write` receives: raw bytes (success and
upstream-error passthrough) or a serialized `ErrorEnvelope`
(synthesized 502/500 errors). -/
inductive ResponseBody where
  | bytes (b : List Nat)
  | envelope (e : ErrorEnvelope)
deriving DecidableEq

/-- The observable effect of one handler invocation: the outbound request
given to `urlopen` (if one was issued), and the status, headers and body
sent back to the caller. -/
structure ProxyResult where
  sentRequest : Option ForwardedRequest
  status : Nat
  headers : List (PyStr × PyStr)
  body : ResponseBody
deriving DecidableEq

/-- The five headers `end_headers` adds to every response. -/
def corsHeaders : List (PyStr × PyStr) :=
  [(pyStr "Access-Control-Allow-Origin", pyStr "*"),
   (pyStr "Access-Control-Allow-Methods", pyStr "GET, POST, PUT, DELETE, OPTIONS"),
   (pyStr "Access-Control-Allow-Headers", pyStr "*"),
   (pyStr "Access-Control-Expose-Headers", pyStr "*"),
   (pyStr "Cache-Control", pyStr "no-cache, no-store, must-revalidate")]

/-- Reading and decoding the request body:
`self.rfile.read(content_length).decode('utf-8') if content_length > 0 else ""`.
`none` when `decode` raises `UnicodeDecodeError`. -/
def parseBody (inp : ProxyInput) : Option PyStr :=
  if 0 < inp.contentLength then utf8DecodeS (inp.rfileBytes.take inp.contentLength)
  else some []

/-- The raw body bytes `self.rfile.read(content_length)` delivers (empty
when `Content-Length` is zero, matching the guard in the handler). -/
def readBody (inp : ProxyInput) : List Nat :=
  if 0 < inp.contentLength then inp.rfileBytes.take inp.contentLength else []

/-- Placeholder for `str(e)` of the `UnicodeDecodeError` raised on an
invalid body (CPython's exact message text is abstracted; no property
depends on it). -/
def unicodeDecodeErrorStr : PyStr := pyStr "invalid continuation byte"

/-- The `except Exception` branch: status 500 with a `"500"` envelope,
`Content-Type: application/json`, CORS headers appended by `end_headers`.
No upstream request was issued. -/
def internalFaultResult : ProxyResult :=
  { sentRequest := none
    status := 500
    headers := [(pyStr "Content-Type", pyStr "application/json")] ++ corsHeaders
    body := .envelope
      { code := pyStr "500"
        msg := pyStr "Proxy error: " ++ unicodeDecodeErrorStr
        requestTime := none
        data := none } }

/-- The `urllib.request.Request` the handler constructs: target URL
`WEEX_API_BASE + self.path`, the decoded body re-encoded (or `None` when
empty), the forwarded header dict, and the method. The header dict holds
`Content-Type` and `locale` always, plus the four auth headers exactly
when all three credential headers are non-empty, with
`ACCESS-SIGN = generate_signature(secret, timestamp, method, sign_path,
sign_body)` where `sign_path` keeps the query string only for GET and
`sign_body` is the body only for POST. -/
def buildForward (inp : ProxyInput) (body : PyStr) : ForwardedRequest :=
  let parts := pySplit qmark inp.path
  let basePath := parts.headD []
  let queryString := parts.getD 1 []
  let apiKey := pyGet inp.headers (pyStr "ACCESS-KEY") []
  let apiSecret := pyGet inp.headers (pyStr "ACCESS-SIGN") []
  let passphrase := pyGet inp.headers (pyStr "ACCESS-PASSPHRASE") []
  let baseHeaders :=
    [(pyStr "Content-Type", pyStr "application/json"),
     (pyStr "locale", pyGet inp.headers (pyStr "locale") (pyStr "en-US"))]
  let forwardHeaders :=
    if apiKey ≠ [] ∧ apiSecret ≠ [] ∧ passphrase ≠ [] then
      let timestamp := pyStr (toString inp.nowMillis)
      let signPath :=
        if pyUpper inp.method = pyStr "GET" ∧ queryString ≠ [] then
          basePath ++ qmark :: queryString
        else basePath
      let signBody := if pyUpper inp.method = pyStr "POST" then body else []
      baseHeaders ++
        [(pyStr "ACCESS-KEY", apiKey),
         (pyStr "ACCESS-SIGN",
          generate_signature apiSecret timestamp inp.method signPath signBody),
         (pyStr "ACCESS-PASSPHRASE", passphrase),
         (pyStr "ACCESS-TIMESTAMP", timestamp)]
    else baseHeaders
  { url := WEEX_API_BASE ++ inp.path
    data := if body ≠ [] then some (utf8Encode body) else none
    headers := forwardHeaders
    method := inp.method }

/-- A rate-limit header forwarded when the upstream supplied it. -/
def optHeader (name : String) : Option PyStr → List (PyStr × PyStr)
  | some v => [(pyStr name, v)]
  | none => []

/-- The response sent back for each outcome of the `urlopen` call:
success copies status, content type, present rate-limit headers and body;
`HTTPError` copies `e.code` and the body re-encoded after
`decode('utf-8', errors='replace')`; `URLError` synthesizes a 502
envelope naming the connection failure reason. -/
def respond (req : ForwardedRequest) : UpstreamOutcome → ProxyResult
  | .success st ct rlL rlR rlRst rbody =>
    { sentRequest := some req
      status := st
      headers := [(pyStr "Content-Type", ct.getD (pyStr "application/json"))]
        ++ optHeader "X-RateLimit-Limit" rlL
        ++ optHeader "X-RateLimit-Remaining" rlR
        ++ optHeader "X-RateLimit-Reset" rlRst
        ++ corsHeaders
      body := .bytes rbody }
  | .httpError code ebody =>
    { sentRequest := some req
      status := code
      headers := [(pyStr "Content-Type", pyStr "application/json")] ++ corsHeaders
      body := .bytes (utf8Encode (utf8DecodeR ebody)) }
  | .urlError reason =>
    { sentRequest := some req
      status := 502
      headers := [(pyStr "Content-Type", pyStr "application/json")] ++ corsHeaders
      body := .envelope
        { code := pyStr "502"
          msg := pyStr "Failed to connect to WEEX API: " ++ reason
          requestTime := none
          data := none } }

/-- `CORSProxyHandler._proxy_request`: read and decode the body (a decode
failure falls into the generic `except Exception` branch before any
network call), build and issue the outbound request, and translate its
outcome. -/
def proxyRequest (inp : ProxyInput) : ProxyResult :=
  match parseBody inp with
  | none => internalFaultResult
  | some body => respond (buildForward inp body) inp.upstream

/-- `CORSProxyHandler.do_OPTIONS`: status 200, no extra headers beyond the
CORS set added by `end_headers`, empty body, no upstream call. -/
def doOPTIONS : ProxyResult :=
  { sentRequest := none
    status := 200
    headers := corsHeaders
    body := .bytes [] }

/-- The `ACCESS-SIGN` header value attached to the outbound request, when
a request was issued and the header is present. -/
def sentSign (inp : ProxyInput) : Option PyStr :=
  ((proxyRequest inp).sentRequest).bind
    (fun r => (r.headers.find? (fun p => p.1 = pyStr "ACCESS-SIGN")).map (fun p => p.2))

/-- Convenience constructor for concrete test inputs. -/
def mkInput (method path : String) (hs : List (String × String)) (cl : Nat)
    (bytes : List Nat) (now : Nat) (up : UpstreamOutcome) : ProxyInput :=
  { method := pyStr method
    path := pyStr path
    headers := hs.map (fun p => (pyStr p.1, pyStr p.2))
    contentLength := cl
    rfileBytes := bytes
    nowMillis := now
    upstream := up }

/-! ## Supporting lemmas -/

/-- `utf8Encode` is a homomorphism for concatenation (as `str.encode` is). -/
theorem utf8Encode_append (a b : PyStr) :
    utf8Encode (a ++ b) = utf8Encode a ++ utf8Encode b := by
  simp [utf8Encode]

/-- Encoding the code point of a valid two-byte sequence restores the bytes. -/
theorem utf8EncodeChar_two (b0 b1 : Nat) (h0 : 194 ≤ b0 ∧ b0 ≤ 223)
    (h1 : 128 ≤ b1 ∧ b1 ≤ 191) :
    utf8EncodeChar ((b0 - 192) * 64 + (b1 - 128)) = [b0, b1] := by
  unfold utf8EncodeChar
  rw [if_neg (by omega), if_pos (by omega)]
  simp only [List.cons.injEq, and_true]
  omega

/-- Encoding the code point of a valid three-byte sequence restores the bytes. -/
theorem utf8EncodeChar_three (b0 b1 b2 : Nat) (h0 : 224 ≤ b0 ∧ b0 ≤ 239)
    (h1 : 128 ≤ b1 ∧ b1 ≤ 191) (h2 : 128 ≤ b2 ∧ b2 ≤ 191)
    (hlo : 2048 ≤ (b0 - 224) * 4096 + (b1 - 128) * 64 + (b2 - 128)) :
    utf8EncodeChar ((b0 - 224) * 4096 + (b1 - 128) * 64 + (b2 - 128)) = [b0, b1, b2] := by
  unfold utf8EncodeChar
  rw [if_neg (by omega), if_neg (by omega), if_pos (by omega)]
  simp only [List.cons.injEq, and_true]
  omega

/-- Encoding the code point of a valid four-byte sequence restores the bytes. -/
theorem utf8EncodeChar_four (b0 b1 b2 b3 : Nat) (h0 : 240 ≤ b0 ∧ b0 ≤ 244)
    (h1 : 128 ≤ b1 ∧ b1 ≤ 191) (h2 : 128 ≤ b2 ∧ b2 ≤ 191) (h3 : 128 ≤ b3 ∧ b3 ≤ 191)
    (hlo : 65536 ≤ (b0 - 240) * 262144 + (b1 - 128) * 4096 + (b2 - 128) * 64 + (b3 - 128)) :
    utf8EncodeChar ((b0 - 240) * 262144 + (b1 - 128) * 4096 + (b2 - 128) * 64 + (b3 - 128))
      = [b0, b1, b2, b3] := by
  unfold utf8EncodeChar
  rw [if_neg (by omega), if_neg (by omega), if_neg (by omega)]
  simp only [List.cons.injEq, and_true]
  omega


/-- A successful `utf8Step` consumes at least one byte and its code point
re-encodes to exactly the consumed bytes. -/
theorem utf8Step_ok : ∀ (l : List Nat) (n cp : Nat), utf8Step l = .ok n cp →
    utf8EncodeChar cp = l.take n ∧ 1 ≤ n := by
  intro l n cp h
  unfold utf8Step at h
  repeat' split at h
  all_goals try (cases h)
  all_goals refine ⟨?_, by omega⟩
  all_goals unfold utf8EncodeChar
  all_goals first
    | (rw [if_pos (by omega)]; simp)
    | (rw [if_neg (by omega), if_pos (by omega)]; simp; try omega)
    | (rw [if_neg (by omega), if_neg (by omega), if_pos (by omega)]; simp; try omega)
    | (rw [if_neg (by omega), if_neg (by omega), if_neg (by omega)]; simp; try omega)

/-- Soundness of the fuelled decoding loops: when the fuel covers the byte
count, a successful strict decode re-encodes to the original bytes and the
replacing decoder agrees with it. -/
theorem utf8DecodeSGo_sound : ∀ (fuel : Nat) (l cps : List Nat),
    l.length ≤ fuel → utf8DecodeSGo fuel l = some cps →
    utf8Encode cps = l ∧ utf8DecodeRGo fuel l = cps := by
  intro fuel
  induction fuel with
  | zero =>
    intro l cps hlen h
    match l with
    | [] =>
      simp only [utf8DecodeSGo, Option.some.injEq] at h
      subst h
      exact ⟨rfl, rfl⟩
    | b :: r => simp at hlen
  | succ fuel ih =>
    intro l cps hlen h
    match l with
    | [] =>
      simp only [utf8DecodeSGo, Option.some.injEq] at h
      subst h
      exact ⟨rfl, rfl⟩
    | b0 :: rest =>
      simp only [utf8DecodeSGo] at h
      cases hstep : utf8Step (b0 :: rest) with
      | ok n cp =>
        rw [hstep] at h
        simp only [Option.map_eq_some'] at h
        obtain ⟨t, ht, rfl⟩ := h
        obtain ⟨henc, hn⟩ := utf8Step_ok _ _ _ hstep
        have hdrop : ((b0 :: rest).drop n).length ≤ fuel := by
          simp only [List.length_drop, List.length_cons] at *
          omega
        obtain ⟨he, hr⟩ := ih _ _ hdrop ht
        constructor
        · have hc : utf8Encode (cp :: t) = utf8EncodeChar cp ++ utf8Encode t := by
            simp [utf8Encode]
          rw [hc, he, henc, List.take_append_drop]
        · rw [utf8DecodeRGo, hstep]
          simp only [hr]
      | bad n =>
        rw [hstep] at h
        simp at h

/-- Strict decoding success determines a byte-faithful re-encoding and
agreement with the replacing decoder: `bytes.decode("utf-8")` followed by
`str.encode("utf-8")` is the identity on well-formed input, and on such
input `errors="replace"` decodes identically. -/
theorem utf8DecodeS_sound (l cps : List Nat) (h : utf8DecodeS l = some cps) :
    utf8Encode cps = l ∧ utf8DecodeR l = cps :=
  utf8DecodeSGo_sound l.length l cps (le_refl _) h

/-- A string free of the separator splits into a single segment. -/
theorem pySplit_no_sep (sep : Nat) (l : PyStr) (h : sep ∉ l) : pySplit sep l = [l] := by
  induction l with
  | nil => rfl
  | cons c r ih =>
    simp only [List.mem_cons, not_or] at h
    rw [pySplit, if_neg (fun hc => h.1 hc.symm), ih h.2]

/-- Splitting a string of the form `P ++ "?" ++ Q` with `sep ∉ P` yields
`P` followed by the splitting of `Q`. -/
theorem pySplit_append (sep : Nat) (P Q : PyStr) (h : sep ∉ P) :
    pySplit sep (P ++ sep :: Q) = P :: pySplit sep Q := by
  induction P with
  | nil => simp [pySplit]
  | cons c r ih =>
    simp only [List.mem_cons, not_or] at h
    rw [List.cons_append, pySplit, if_neg (fun hc => h.1 hc.symm), ih h.2]

/-- A successfully decoded body re-encodes to exactly the bytes read. -/
theorem parseBody_encode (inp : ProxyInput) (body : PyStr)
    (h : parseBody inp = some body) : utf8Encode body = readBody inp := by
  rw [parseBody] at h
  rw [readBody]
  by_cases hcl : 0 < inp.contentLength
  · rw [if_pos hcl] at h
    rw [if_pos hcl]
    exact (utf8DecodeS_sound _ _ h).1
  · rw [if_neg hcl] at h
    rw [if_neg hcl]
    injection h with h1
    rw [← h1]
    rfl

/-- Unfolding of the handler when the body decodes successfully. -/
theorem proxyRequest_forward (inp : ProxyInput) (body : PyStr)
    (h : parseBody inp = some body) :
    proxyRequest inp = respond (buildForward inp body) inp.upstream := by
  rw [proxyRequest, h]

/-- When the body decodes, the handler issues exactly the built request. -/
theorem proxyRequest_sentRequest (inp : ProxyInput) (body : PyStr)
    (h : parseBody inp = some body) :
    (proxyRequest inp).sentRequest = some (buildForward inp body) := by
  rw [proxyRequest_forward inp body h]
  cases inp.upstream <;> rfl

/-- The signature the handler attaches when all three credentials are
present: `generate_signature(secret, timestamp, method, sign_path,
sign_body)` exactly as `_proxy_request` computes those five arguments. -/
theorem sentSign_eq (inp : ProxyInput) (body : PyStr)
    (hbody : parseBody inp = some body)
    (hk : pyGet inp.headers (pyStr "ACCESS-KEY") [] ≠ [])
    (hs : pyGet inp.headers (pyStr "ACCESS-SIGN") [] ≠ [])
    (hp : pyGet inp.headers (pyStr "ACCESS-PASSPHRASE") [] ≠ []) :
    sentSign inp = some (generate_signature (pyGet inp.headers (pyStr "ACCESS-SIGN") [])
      (pyStr (toString inp.nowMillis)) inp.method
      (if pyUpper inp.method = pyStr "GET" ∧ (pySplit qmark inp.path).getD 1 [] ≠ []
        then (pySplit qmark inp.path).headD [] ++ qmark :: (pySplit qmark inp.path).getD 1 []
        else (pySplit qmark inp.path).headD [])
      (if pyUpper inp.method = pyStr "POST" then body else [])) := by
  have e1 : decide (pyStr "Content-Type" = pyStr "ACCESS-SIGN") = false := by decide
  have e2 : decide (pyStr "locale" = pyStr "ACCESS-SIGN") = false := by decide
  have e3 : decide (pyStr "ACCESS-KEY" = pyStr "ACCESS-SIGN") = false := by decide
  rw [sentSign, proxyRequest_sentRequest inp body hbody]
  simp only [Option.bind_eq_bind, Option.some_bind, buildForward, hk, hs, hp,
    ne_eq, not_false_iff, and_self, if_true]
  simp only [List.find?, e1, e2, e3, decide_True, Option.map_some']

/-! ## Claims -/

/-- C9: the signing function is pure and deterministic — invoking it on an
identical (secret, timestamp, method, path, body) tuple twice yields
byte-for-byte identical signatures (there is no hidden state or
randomness in the embedding of `generate_signature`). -/
theorem C9_signer_deterministic (s1 t1 m1 p1 b1 s2 t2 m2 p2 b2 : PyStr)
    (hsec : s1 = s2) (ht : t1 = t2) (hm : m1 = m2) (hpa : p1 = p2) (hb : b1 = b2) :
    generate_signature s1 t1 m1 p1 b1 = generate_signature s2 t2 m2 p2 b2 := by
  rw [hsec, ht, hm, hpa, hb]

/-- Witness for C9 at a concrete tuple. -/
theorem C9_signer_deterministic_witness :
    generate_signature (pyStr "sec") (pyStr "1700000000000") (pyStr "POST")
        (pyStr "/capi/v2/order/placeOrder") (pyStr "{}")
      = generate_signature (pyStr "sec") (pyStr "1700000000000") (pyStr "POST")
        (pyStr "/capi/v2/order/placeOrder") (pyStr "{}") :=
  C9_signer_deterministic _ _ _ _ _ _ _ _ _ _ rfl rfl rfl rfl rfl

/-- C8: `do_OPTIONS` answers every preflight with status 200, an empty
body, exactly the CORS header set, and never engages the signer or the
forwarder (no upstream request object exists). -/
theorem C8_options_preflight :
    doOPTIONS.status = 200 ∧ doOPTIONS.body = .bytes [] ∧
    doOPTIONS.sentRequest = none ∧ doOPTIONS.headers = corsHeaders :=
  ⟨rfl, rfl, rfl, rfl⟩

/-- C7: every response of the proxy handler — success, upstream error
passthrough, synthesized 502/500, and the OPTIONS preflight — carries the
fixed CORS header set (allow-origin `*`, allow-methods
GET/POST/PUT/DELETE/OPTIONS, allow-headers `*`, expose-headers `*`, and
the no-cache directive). -/
theorem C7_cors_on_every_response : ∀ inp : ProxyInput,
    corsHeaders ⊆ (proxyRequest inp).headers ∧ corsHeaders ⊆ doOPTIONS.headers ∧
    corsHeaders =
      [(pyStr "Access-Control-Allow-Origin", pyStr "*"),
       (pyStr "Access-Control-Allow-Methods", pyStr "GET, POST, PUT, DELETE, OPTIONS"),
       (pyStr "Access-Control-Allow-Headers", pyStr "*"),
       (pyStr "Access-Control-Expose-Headers", pyStr "*"),
       (pyStr "Cache-Control", pyStr "no-cache, no-store, must-revalidate")] := by
  intro inp
  refine ⟨?_, fun x hx => hx, rfl⟩
  cases hpb : parseBody inp with
  | none =>
    rw [proxyRequest, hpb]
    exact fun x hx => List.mem_append_right _ hx
  | some body =>
    rw [proxyRequest_forward inp body hpb]
    cases inp.upstream with
    | success st ct rlL rlR rlRst rbody => exact fun x hx => List.mem_append_right _ hx
    | httpError code ebody => exact fun x hx => List.mem_append_right _ hx
    | urlError reason => exact fun x hx => List.mem_append_right _ hx

/-- C6: when the upstream call fails without a response (`URLError`), the
handler answers 502 with an `ErrorEnvelope` whose `code` is `"502"`,
whose `msg` contains the underlying connection failure reason, and whose
`requestTime` and `data` are null. -/
theorem C6_connection_error_502 (inp : ProxyInput) (reason body : PyStr)
    (hbody : parseBody inp = some body)
    (hup : inp.upstream = .urlError reason) :
    (proxyRequest inp).status = 502 ∧
    (proxyRequest inp).body = .envelope
      { code := pyStr "502"
        msg := pyStr "Failed to connect to WEEX API: " ++ reason
        requestTime := none
        data := none } ∧
    reason <:+ pyStr "Failed to connect to WEEX API: " ++ reason := by
  rw [proxyRequest_forward inp body hbody, hup]
  exact ⟨rfl, rfl, List.suffix_append _ _⟩

/-- Witness for C6: a concrete unreachable-upstream request. -/
theorem C6_connection_error_502_witness :
    (proxyRequest (mkInput "GET" "/capi/v2/market/ticker" [] 0 [] 7
        (.urlError (pyStr "Connection refused")))).status = 502 ∧
    (proxyRequest (mkInput "GET" "/capi/v2/market/ticker" [] 0 [] 7
        (.urlError (pyStr "Connection refused")))).body = .envelope
      { code := pyStr "502"
        msg := pyStr "Failed to connect to WEEX API: " ++ pyStr "Connection refused"
        requestTime := none
        data := none } ∧
    pyStr "Connection refused" <:+
      pyStr "Failed to connect to WEEX API: " ++ pyStr "Connection refused" :=
  C6_connection_error_502 _ _ _ rfl rfl

/-- C10: an inbound body that is not valid UTF-8 never reaches the
network: the handler issues no upstream request and synthesizes a 500
response whose envelope code is `"500"` (the decode failure is caught by
the generic internal-fault branch). -/
theorem C10_invalid_body_500 (inp : ProxyInput)
    (hcl : 0 < inp.contentLength)
    (hdec : utf8DecodeS (inp.rfileBytes.take inp.contentLength) = none) :
    (proxyRequest inp).sentRequest = none ∧
    (proxyRequest inp).status = 500 ∧
    (proxyRequest inp).body = .envelope
      { code := pyStr "500"
        msg := pyStr "Proxy error: " ++ unicodeDecodeErrorStr
        requestTime := none
        data := none } := by
  have hpb : parseBody inp = none := by rw [parseBody, if_pos hcl, hdec]
  rw [proxyRequest, hpb]
  exact ⟨rfl, rfl, rfl⟩

/-- Witness for C10: a POST whose single body byte `0xff` is invalid UTF-8. -/
theorem C10_invalid_body_500_witness :
    (proxyRequest (mkInput "POST" "/capi/v2/order/placeOrder"
        [("ACCESS-KEY", "k"), ("ACCESS-SIGN", "s"), ("ACCESS-PASSPHRASE", "p")]
        1 [255] 7 (.success 200 none none none none []))).sentRequest = none ∧
    (proxyRequest (mkInput "POST" "/capi/v2/order/placeOrder"
        [("ACCESS-KEY", "k"), ("ACCESS-SIGN", "s"), ("ACCESS-PASSPHRASE", "p")]
        1 [255] 7 (.success 200 none none none none []))).status = 500 ∧
    (proxyRequest (mkInput "POST" "/capi/v2/order/placeOrder"
        [("ACCESS-KEY", "k"), ("ACCESS-SIGN", "s"), ("ACCESS-PASSPHRASE", "p")]
        1 [255] 7 (.success 200 none none none none []))).body = .envelope
      { code := pyStr "500"
        msg := pyStr "Proxy error: " ++ unicodeDecodeErrorStr
        requestTime := none
        data := none } :=
  C10_invalid_body_500 _ (by decide) (by decide)

/-- C5: the credential gate. If any of the three credential headers is
absent or empty, the outbound request carries none of the four auth
headers; only when all three are non-empty does the handler attach them
(shown here by the presence of the added auth headers). -/
theorem C5_credential_gate (inp : ProxyInput) (body : PyStr) (req : ForwardedRequest)
    (hbody : parseBody inp = some body)
    (hreq : (proxyRequest inp).sentRequest = some req) :
    ((pyGet inp.headers (pyStr "ACCESS-KEY") [] = [] ∨
      pyGet inp.headers (pyStr "ACCESS-SIGN") [] = [] ∨
      pyGet inp.headers (pyStr "ACCESS-PASSPHRASE") [] = []) →
      ∀ pr ∈ req.headers, pr.1 ≠ pyStr "ACCESS-KEY" ∧ pr.1 ≠ pyStr "ACCESS-SIGN" ∧
        pr.1 ≠ pyStr "ACCESS-PASSPHRASE" ∧ pr.1 ≠ pyStr "ACCESS-TIMESTAMP") ∧
    ((pyGet inp.headers (pyStr "ACCESS-KEY") [] ≠ [] ∧
      pyGet inp.headers (pyStr "ACCESS-SIGN") [] ≠ [] ∧
      pyGet inp.headers (pyStr "ACCESS-PASSPHRASE") [] ≠ []) →
      (pyStr "ACCESS-KEY", pyGet inp.headers (pyStr "ACCESS-KEY") []) ∈ req.headers ∧
      (pyStr "ACCESS-PASSPHRASE", pyGet inp.headers (pyStr "ACCESS-PASSPHRASE") [])
        ∈ req.headers ∧
      (pyStr "ACCESS-TIMESTAMP", pyStr (toString inp.nowMillis)) ∈ req.headers) := by
  have hr := proxyRequest_sentRequest inp body hbody
  rw [hreq] at hr
  injection hr with hr
  subst hr
  constructor
  · intro hmiss pr hpr
    have hcond : ¬(pyGet inp.headers (pyStr "ACCESS-KEY") [] ≠ [] ∧
        pyGet inp.headers (pyStr "ACCESS-SIGN") [] ≠ [] ∧
        pyGet inp.headers (pyStr "ACCESS-PASSPHRASE") [] ≠ []) := by tauto
    simp only [buildForward, hcond, if_false] at hpr
    simp only [List.mem_cons, List.not_mem_nil, or_false] at hpr
    rcases hpr with rfl | rfl
    · exact ⟨by decide, by decide, by decide, by decide⟩
    · exact ⟨(by decide : pyStr "locale" ≠ pyStr "ACCESS-KEY"),
        (by decide : pyStr "locale" ≠ pyStr "ACCESS-SIGN"),
        (by decide : pyStr "locale" ≠ pyStr "ACCESS-PASSPHRASE"),
        (by decide : pyStr "locale" ≠ pyStr "ACCESS-TIMESTAMP")⟩
  · intro hcred
    obtain ⟨hk, hsig, hpass⟩ := hcred
    simp only [buildForward, hk, hsig, hpass, ne_eq, not_false_iff, and_self, if_true]
    refine ⟨?_, ?_, ?_⟩ <;> simp

/-- Witness for C5: a request missing `ACCESS-KEY` is forwarded with only
the content-type and locale headers; the sample pair carries none of the
four auth header names. -/
theorem C5_credential_gate_witness :
    parseBody (mkInput "GET" "/capi/v2/x" [("ACCESS-SIGN", "s"), ("ACCESS-PASSPHRASE", "p")]
        0 [] 3 (.success 200 none none none none [])) = some [] ∧
    (proxyRequest (mkInput "GET" "/capi/v2/x" [("ACCESS-SIGN", "s"), ("ACCESS-PASSPHRASE", "p")]
        0 [] 3 (.success 200 none none none none []))).sentRequest = some
      { url := WEEX_API_BASE ++ pyStr "/capi/v2/x"
        data := none
        headers := [(pyStr "Content-Type", pyStr "application/json"),
                    (pyStr "locale", pyStr "en-US")]
        method := pyStr "GET" } ∧
    ((pyStr "Content-Type", pyStr "application/json").1 ≠ pyStr "ACCESS-KEY" ∧
     (pyStr "Content-Type", pyStr "application/json").1 ≠ pyStr "ACCESS-SIGN" ∧
     (pyStr "Content-Type", pyStr "application/json").1 ≠ pyStr "ACCESS-PASSPHRASE" ∧
     (pyStr "Content-Type", pyStr "application/json").1 ≠ pyStr "ACCESS-TIMESTAMP") :=
  ⟨by decide, by decide,
    (C5_credential_gate
      (mkInput "GET" "/capi/v2/x" [("ACCESS-SIGN", "s"), ("ACCESS-PASSPHRASE", "p")]
        0 [] 3 (.success 200 none none none none [])) []
      { url := WEEX_API_BASE ++ pyStr "/capi/v2/x"
        data := none
        headers := [(pyStr "Content-Type", pyStr "application/json"),
                    (pyStr "locale", pyStr "en-US")]
        method := pyStr "GET" }
      (by decide) (by decide)).1 (by decide)
      (pyStr "Content-Type", pyStr "application/json") (by decide)⟩

/-- C2 (amended): an upstream non-2xx response (`HTTPError`) is passed
through with the identical status code; the body is UTF-8-decoded with
replacement and re-encoded, which restores the identical body bytes
whenever the upstream body is valid UTF-8. -/
theorem C2_upstream_error_passthrough (inp : ProxyInput) (body : PyStr)
    (code : Nat) (ebody cps : List Nat)
    (hbody : parseBody inp = some body)
    (hup : inp.upstream = .httpError code ebody)
    (hvalid : utf8DecodeS ebody = some cps) :
    (proxyRequest inp).status = code ∧ (proxyRequest inp).body = .bytes ebody := by
  obtain ⟨henc, hrep⟩ := utf8DecodeS_sound ebody cps hvalid
  rw [proxyRequest_forward inp body hbody, hup]
  refine ⟨rfl, ?_⟩
  show ResponseBody.bytes (utf8Encode (utf8DecodeR ebody)) = .bytes ebody
  rw [hrep, henc]

/-- Witness for C2: a concrete 404 with the valid-UTF-8 body `"hi"`. -/
theorem C2_upstream_error_passthrough_witness :
    (proxyRequest (mkInput "GET" "/capi/v2/x" [] 0 [] 3
        (.httpError 404 [104, 105]))).status = 404 ∧
    (proxyRequest (mkInput "GET" "/capi/v2/x" [] 0 [] 3
        (.httpError 404 [104, 105]))).body = .bytes [104, 105] :=
  C2_upstream_error_passthrough _ [] 404 [104, 105] [104, 105] (by decide) (by decide) (by decide)

/-- Counterexample for C2 as stated: the upstream error body `[0xff]` is
readable but not valid UTF-8; after `decode('utf-8', errors='replace')`
and re-encoding the caller receives the U+FFFD bytes `[0xef, 0xbf, 0xbd]`,
not the identical upstream bytes. -/
theorem C2_counterexample :
    (proxyRequest (mkInput "GET" "/capi/v2/x" [] 0 [] 3
        (.httpError 404 [255]))).status = 404 ∧
    (proxyRequest (mkInput "GET" "/capi/v2/x" [] 0 [] 3
        (.httpError 404 [255]))).body = .bytes [239, 191, 189] ∧
    (proxyRequest (mkInput "GET" "/capi/v2/x" [] 0 [] 3
        (.httpError 404 [255]))).body ≠ .bytes [255] := by
  refine ⟨by decide, by decide, by decide⟩

/-- C4: for an authenticated GET the signature has no body contribution —
whatever bytes were received as a request body, the canonical message is
`timestamp + "GET" + P` for a query-free path `P` (the sign body is the
empty string). -/
theorem C4_get_signature_no_body (inp : ProxyInput) (body : PyStr)
    (hbody : parseBody inp = some body)
    (hm : pyUpper inp.method = pyStr "GET")
    (hnoq : qmark ∉ inp.path)
    (hk : pyGet inp.headers (pyStr "ACCESS-KEY") [] ≠ [])
    (hsig : pyGet inp.headers (pyStr "ACCESS-SIGN") [] ≠ [])
    (hpass : pyGet inp.headers (pyStr "ACCESS-PASSPHRASE") [] ≠ []) :
    sentSign inp = some (b64Encode (hmacSha256
      (utf8Encode (pyGet inp.headers (pyStr "ACCESS-SIGN") []))
      (utf8Encode (pyStr (toString inp.nowMillis) ++ pyStr "GET" ++ inp.path)))) := by
  have hsplit : pySplit qmark inp.path = [inp.path] := pySplit_no_sep _ _ hnoq
  rw [sentSign_eq inp body hbody hk hsig hpass, hsplit]
  rw [if_neg (fun hc => hc.2 rfl)]
  rw [if_neg (fun hc => by rw [hm] at hc; exact absurd hc (by decide))]
  rw [generate_signature, hm]
  simp [List.append_assoc]

/-- Witness for C4: a concrete authenticated GET without query string. -/
theorem C4_get_signature_no_body_witness :
    sentSign (mkInput "GET" "/capi/v2/account/accounts"
        [("ACCESS-KEY", "k"), ("ACCESS-SIGN", "s"), ("ACCESS-PASSPHRASE", "p")]
        0 [] 42 (.success 200 none none none none []))
      = some (b64Encode (hmacSha256
        (utf8Encode (pyGet (mkInput "GET" "/capi/v2/account/accounts"
          [("ACCESS-KEY", "k"), ("ACCESS-SIGN", "s"), ("ACCESS-PASSPHRASE", "p")]
          0 [] 42 (.success 200 none none none none [])).headers (pyStr "ACCESS-SIGN") []))
        (utf8Encode (pyStr (toString 42) ++ pyStr "GET" ++ pyStr "/capi/v2/account/accounts")))) :=
  C4_get_signature_no_body
    (mkInput "GET" "/capi/v2/account/accounts"
      [("ACCESS-KEY", "k"), ("ACCESS-SIGN", "s"), ("ACCESS-PASSPHRASE", "p")]
      0 [] 42 (.success 200 none none none none [])) []
    (by decide) (by decide) (by decide) (by decide) (by decide) (by decide)

/-- C3: for an authenticated POST the canonical message is
`timestamp + "POST" + P + B`, where `P` is the bare path (first
`?`-separated segment) and `B` the raw request body bytes; any query
string on the inbound path leaves the signature unchanged. -/
theorem C3_post_signature (inp : ProxyInput) (P Q body : PyStr)
    (hP : qmark ∉ P)
    (hpath : inp.path = P ∨ inp.path = P ++ qmark :: Q)
    (hbody : parseBody inp = some body)
    (hm : pyUpper inp.method = pyStr "POST")
    (hk : pyGet inp.headers (pyStr "ACCESS-KEY") [] ≠ [])
    (hsig : pyGet inp.headers (pyStr "ACCESS-SIGN") [] ≠ [])
    (hpass : pyGet inp.headers (pyStr "ACCESS-PASSPHRASE") [] ≠ []) :
    sentSign inp = some (b64Encode (hmacSha256
      (utf8Encode (pyGet inp.headers (pyStr "ACCESS-SIGN") []))
      (utf8Encode (pyStr (toString inp.nowMillis) ++ pyStr "POST" ++ P) ++ readBody inp))) := by
  have hhead : (pySplit qmark inp.path).headD [] = P := by
    rcases hpath with h | h
    · rw [h, pySplit_no_sep _ _ hP]
      rfl
    · rw [h, pySplit_append _ _ _ hP]
      rfl
  rw [sentSign_eq inp body hbody hk hsig hpass]
  rw [if_neg (fun hc => by rw [hm] at hc; exact absurd hc.1 (by decide))]
  rw [if_pos hm, hhead, generate_signature, hm]
  rw [← parseBody_encode inp body hbody]
  simp [List.append_assoc, utf8Encode_append]

/-- Witness for C3: a concrete authenticated POST with a query string on
the path; the signature is over the bare path and the raw body. -/
theorem C3_post_signature_witness :
    sentSign (mkInput "POST" "/capi/v2/order/placeOrder?x=1"
        [("ACCESS-KEY", "k"), ("ACCESS-SIGN", "s"), ("ACCESS-PASSPHRASE", "p")]
        2 [104, 105] 42 (.success 200 none none none none []))
      = some (b64Encode (hmacSha256
        (utf8Encode (pyGet (mkInput "POST" "/capi/v2/order/placeOrder?x=1"
          [("ACCESS-KEY", "k"), ("ACCESS-SIGN", "s"), ("ACCESS-PASSPHRASE", "p")]
          2 [104, 105] 42 (.success 200 none none none none [])).headers
          (pyStr "ACCESS-SIGN") []))
        (utf8Encode (pyStr (toString 42) ++ pyStr "POST" ++ pyStr "/capi/v2/order/placeOrder")
          ++ readBody (mkInput "POST" "/capi/v2/order/placeOrder?x=1"
            [("ACCESS-KEY", "k"), ("ACCESS-SIGN", "s"), ("ACCESS-PASSPHRASE", "p")]
            2 [104, 105] 42 (.success 200 none none none none []))))) :=
  C3_post_signature
    (mkInput "POST" "/capi/v2/order/placeOrder?x=1"
      [("ACCESS-KEY", "k"), ("ACCESS-SIGN", "s"), ("ACCESS-PASSPHRASE", "p")]
      2 [104, 105] 42 (.success 200 none none none none []))
    (pyStr "/capi/v2/order/placeOrder") (pyStr "x=1") [104, 105]
    (by decide) (Or.inr (by decide)) (by decide) (by decide)
    (by decide) (by decide) (by decide)

/-- C1 (amended): for an authenticated GET whose query string `Q` contains
no further `?` (so the inbound path is `P ++ "?" ++ Q` with exactly one
`?`), the canonical message is `timestamp + "GET" + P + "?" + Q` — the
query string exactly as received, order preserved, no re-encoding — and
the signature is its base64 HMAC-SHA256 under the caller secret. When `Q`
itself contains a `?`, the code signs only the part of the query before
the second `?` (see the counterexample). -/
theorem C1_get_query_signature (inp : ProxyInput) (P Q body : PyStr)
    (hP : qmark ∉ P) (hQ : qmark ∉ Q) (hQne : Q ≠ [])
    (hpath : inp.path = P ++ qmark :: Q)
    (hm : pyUpper inp.method = pyStr "GET")
    (hbody : parseBody inp = some body)
    (hk : pyGet inp.headers (pyStr "ACCESS-KEY") [] ≠ [])
    (hsig : pyGet inp.headers (pyStr "ACCESS-SIGN") [] ≠ [])
    (hpass : pyGet inp.headers (pyStr "ACCESS-PASSPHRASE") [] ≠ []) :
    sentSign inp = some (b64Encode (hmacSha256
      (utf8Encode (pyGet inp.headers (pyStr "ACCESS-SIGN") []))
      (utf8Encode (pyStr (toString inp.nowMillis) ++ pyStr "GET" ++ P ++ qmark :: Q)))) := by
  have hsplit : pySplit qmark inp.path = [P, Q] := by
    rw [hpath, pySplit_append _ _ _ hP, pySplit_no_sep _ _ hQ]
  rw [sentSign_eq inp body hbody hk hsig hpass, hsplit]
  rw [if_pos ⟨hm, fun hc => hQne hc⟩]
  rw [if_neg (fun hc => by rw [hm] at hc; exact absurd hc (by decide))]
  rw [generate_signature, hm]
  simp [List.append_assoc]

/-- Witness for C1 (amended): a concrete authenticated GET with a single
`?` in the path. -/
theorem C1_get_query_signature_witness :
    sentSign (mkInput "GET" "/capi/v2/market/ticker?symbol=cmt_btcusdt"
        [("ACCESS-KEY", "k"), ("ACCESS-SIGN", "s"), ("ACCESS-PASSPHRASE", "p")]
        0 [] 42 (.success 200 none none none none []))
      = some (b64Encode (hmacSha256
        (utf8Encode (pyGet (mkInput "GET" "/capi/v2/market/ticker?symbol=cmt_btcusdt"
          [("ACCESS-KEY", "k"), ("ACCESS-SIGN", "s"), ("ACCESS-PASSPHRASE", "p")]
          0 [] 42 (.success 200 none none none none [])).headers
          (pyStr "ACCESS-SIGN") []))
        (utf8Encode (pyStr (toString 42) ++ pyStr "GET" ++ pyStr "/capi/v2/market/ticker"
          ++ qmark :: pyStr "symbol=cmt_btcusdt")))) :=
  C1_get_query_signature
    (mkInput "GET" "/capi/v2/market/ticker?symbol=cmt_btcusdt"
      [("ACCESS-KEY", "k"), ("ACCESS-SIGN", "s"), ("ACCESS-PASSPHRASE", "p")]
      0 [] 42 (.success 200 none none none none []))
    (pyStr "/capi/v2/market/ticker") (pyStr "symbol=cmt_btcusdt") []
    (by decide) (by decide) (by decide) (by decide) (by decide) (by decide)
    (by decide) (by decide) (by decide)

set_option maxRecDepth 1000000 in
/-- Counterexample for C1 as stated: for the path `/capi/a?b?c` the query
string as received is `b?c`, but `self.path.split('?')` keeps only the
segment `b`, so the handler signs `/capi/a?b` and the produced signature
differs from the claimed signature over the full query string. -/
theorem C1_counterexample :
    sentSign (mkInput "GET" "/capi/a?b?c"
        [("ACCESS-KEY", "k"), ("ACCESS-SIGN", "s"), ("ACCESS-PASSPHRASE", "p")]
        0 [] 1 (.success 200 none none none none []))
      = some (generate_signature (pyStr "s") (pyStr "1") (pyStr "GET")
          (pyStr "/capi/a?b") (pyStr "")) ∧
    sentSign (mkInput "GET" "/capi/a?b?c"
        [("ACCESS-KEY", "k"), ("ACCESS-SIGN", "s"), ("ACCESS-PASSPHRASE", "p")]
        0 [] 1 (.success 200 none none none none []))
      ≠ some (generate_signature (pyStr "s") (pyStr "1") (pyStr "GET")
          (pyStr "/capi/a?b?c") (pyStr "")) := by
  refine ⟨by decide, by decide⟩
